import Mathlib

/-!
Verification of `src/preprocess_inundation_rasters.py`.

The script defines one local operation, `mask_inundation` (lines 30–46),
which classifies a block of floating-point inundation-depth values into a
same-shaped block of unsigned 8-bit values: 1 where the depth is strictly
greater than 0, and 0 everywhere else.  `main` (lines 17–50) hands that
operation to `pygeoprocessing.raster_calculator` with an output pixel type
of `gdal.GDT_Byte` and `nodata_target=255`, with no exception handling.

The embedding below models a floating-point pixel value as either NaN, one
of the two infinities, or a finite value (every finite IEEE-754 double is a
rational number, and the only operation the script performs on pixel values
is the comparison `> 0`, which this split captures exactly: `NaN > 0` is
false, `+inf > 0` is true, `-inf > 0` is false, and a finite value compares
as its rational value).  A block (numpy 2-d ndarray) is a list of rows.
-/

/-- A floating-point pixel value of the source raster: NaN, an infinity, or
a finite value, the latter represented by its exact rational value. -/
inductive Depth where
  | nan : Depth
  | posInf : Depth
  | negInf : Depth
  | finite : ℚ → Depth
deriving DecidableEq

/-- The IEEE-754 comparison `depth > 0` as numpy evaluates it in
`depth_under_water > 0` (line 45): false for NaN (every ordered comparison
with NaN is false), true for +inf, false for -inf, and the rational
comparison for finite values. -/
def Depth.gtZero : Depth → Bool
  | .nan => false
  | .posInf => true
  | .negInf => false
  | .finite q => decide (0 < q)

/-- A rectangular block of pixel values: a list of rows. -/
abbrev Block (α : Type) := List (List α)

/-- Shallow embedding of `mask_inundation`
(src/preprocess_inundation_rasters.py, lines 43–46).  The source allocates
`out_matrix` with the input's shape and dtype `numpy.uint8` (line 43),
fills it with 0 via `out_matrix[:] = 0` (line 44), and overwrites with 1
exactly the positions where `depth_under_water > 0` (line 45).
Elementwise this is: each output pixel is 1 if the input pixel compares
strictly greater than 0, else 0. -/
def mask_inundation (depth_under_water : Block Depth) : Block ℕ :=
  depth_under_water.map (fun row =>
    row.map (fun depth => if depth.gtZero then 1 else 0))

/-- The scalar classifier underlying the vectorized assignment of lines
44–45: 1 where the depth compares strictly greater than 0, else 0. -/
def classifyPixel (d : Depth) : ℕ :=
  if d.gtZero then 1 else 0

/-- The `nodata_target` keyword argument passed to
`pygeoprocessing.raster_calculator` on line 50. -/
def nodata_target : ℕ := 255

/-- The pixel of a block at (row `i`, column `j`), when in bounds. -/
def pixel? (m : Block α) (i j : ℕ) : Option α :=
  (m[i]?).bind (fun row => row[j]?)

/-- The shape of a block: the list of its row lengths. -/
def shape (m : Block α) : List ℕ :=
  m.map List.length

/-- An I/O failure of the kind `pygeoprocessing.raster_calculator` can
raise: the source raster cannot be read, or the target cannot be written. -/
inductive RasterError where
  | sourceUnreadable : RasterError
  | targetUnwritable : RasterError
deriving DecidableEq

/-- Modelled from the spec: `pygeoprocessing.raster_calculator` (the
third-party library call on lines 48–50, whose code is not part of this
repository) "Opens source raster for block-wise reading", "Creates target
raster with byte pixel type and nodata value 255", "Applies `classify` to
every block, writing results to the corresponding location in the target
raster", and "Fails with I/O error if source path is unreadable or target
path is not writable".  The readability of the two paths is abstracted as
two booleans; on success the written target raster is the local operation
applied to every source block. -/
def raster_calculator (sourceReadable targetWritable : Bool)
    (local_op : Block Depth → Block ℕ) (sourceBlocks : List (Block Depth)) :
    Except RasterError (List (Block ℕ)) :=
  if sourceReadable = false then .error .sourceUnreadable
  else if targetWritable = false then .error .targetUnwritable
  else .ok (sourceBlocks.map local_op)

/-- Shallow embedding of `main` (lines 17–50), under the spec's name
`run(source_path, target_path)` because `main` is reserved in Lean: it
calls `pygeoprocessing.raster_calculator` with `mask_inundation` as the
local operation and performs no exception handling of its own (there is no
try/except anywhere in the script), so any library error propagates
unchanged. -/
def run (sourceReadable targetWritable : Bool)
    (sourceBlocks : List (Block Depth)) :
    Except RasterError (List (Block ℕ)) :=
  raster_calculator sourceReadable targetWritable mask_inundation sourceBlocks

/-- Modelled from the spec: "process exits with an unhandled-error trace
and non-zero status if either path is invalid or unreadable/unwritable;
otherwise exits 0 after writing the output raster" — the Python
interpreter's convention of exiting 0 on normal return and non-zero on an
unhandled exception. -/
def exitCode (r : Except RasterError (List (Block ℕ))) : ℕ :=
  match r with
  | .ok _ => 0
  | .error _ => 1

/-- Key lemma: `pixel?` commutes with an elementwise map over a block. -/
theorem pixel?_map (f : α → β) (m : Block α) (i j : ℕ) :
    pixel? (m.map (List.map f)) i j = (pixel? m i j).map f := by
  unfold pixel?
  rw [List.getElem?_map]
  cases m[i]? with
  | none => rfl
  | some row => simp [List.getElem?_map]

/-- The block operation is the elementwise map of the scalar classifier. -/
theorem mask_inundation_eq_map (b : Block Depth) :
    mask_inundation b = b.map (List.map classifyPixel) := rfl

/-- `pixel?` of a `mask_inundation` output, in terms of the input pixel. -/
theorem pixel?_mask_inundation (b : Block Depth) (i j : ℕ) :
    pixel? (mask_inundation b) i j = (pixel? b i j).map classifyPixel := by
  rw [mask_inundation_eq_map, pixel?_map]

/-- Every element of a `mask_inundation` output block is 0 or 1. -/
theorem mask_inundation_mem (b : Block Depth) :
    ∀ row ∈ mask_inundation b, ∀ x ∈ row, x = 0 ∨ x = 1 := by
  intro row hrow x hx
  rw [mask_inundation_eq_map] at hrow
  obtain ⟨r, _, rfl⟩ := List.mem_map.mp hrow
  obtain ⟨d, _, rfl⟩ := List.mem_map.mp hx
  unfold classifyPixel
  by_cases hd : d.gtZero = true <;> simp [hd]

/-- C1: for every input block and pixel position, `mask_inundation` outputs
1 at that position if the input value is strictly greater than 0, and 0
otherwise (in particular for the value exactly 0 and for all negative
values). -/
theorem C1_threshold_at_zero (b : Block Depth) (i j : ℕ) (d : Depth)
    (h : pixel? b i j = some d) :
    pixel? (mask_inundation b) i j = some (if d.gtZero then 1 else 0)
      ∧ ∀ q : ℚ, d = Depth.finite q →
          pixel? (mask_inundation b) i j = some (if 0 < q then 1 else 0) := by
  have hm : pixel? (mask_inundation b) i j = some (classifyPixel d) := by
    rw [pixel?_mask_inundation, h]; rfl
  refine ⟨hm, ?_⟩
  rintro q rfl
  rw [hm]
  by_cases hq : 0 < q <;> simp [classifyPixel, Depth.gtZero, hq]

/-- Witness for C1 at the single-pixel block [[2.0]]. -/
theorem C1_threshold_at_zero_witness :
    pixel? (mask_inundation [[Depth.finite 2]]) 0 0
      = some (if (0 : ℚ) < 2 then 1 else 0) :=
  (C1_threshold_at_zero [[Depth.finite 2]] 0 0 (Depth.finite 2) rfl).2 2 rfl

/-- C2: `mask_inundation` applies no nodata masking: a negative pixel value
(a negative infinity or any negative finite float, such as a large negative
nodata sentinel) is classified as 0, never as the nodata marker 255. -/
theorem C2_no_nodata_masking (b : Block Depth) (i j : ℕ) (d : Depth)
    (hneg : d = Depth.negInf ∨ ∃ q : ℚ, q < 0 ∧ d = Depth.finite q)
    (h : pixel? b i j = some d) :
    pixel? (mask_inundation b) i j = some 0 ∧ (0 : ℕ) ≠ nodata_target := by
  refine ⟨?_, by decide⟩
  rw [pixel?_mask_inundation, h]
  rcases hneg with rfl | ⟨q, hq, rfl⟩
  · rfl
  · simp [classifyPixel, Depth.gtZero, asymm hq]

/-- Witness for C2 at the single-pixel block [[-1.0]]. -/
theorem C2_no_nodata_masking_witness :
    pixel? (mask_inundation [[Depth.finite (-1)]]) 0 0 = some 0
      ∧ (0 : ℕ) ≠ nodata_target :=
  C2_no_nodata_masking [[Depth.finite (-1)]] 0 0 (Depth.finite (-1))
    (Or.inr ⟨-1, by norm_num, rfl⟩) rfl

/-- C3: every pixel value in a target raster produced by the transform is
one of 0, 1 or 255. -/
theorem C3_output_domain (sr tw : Bool) (blocks : List (Block Depth))
    (target : List (Block ℕ)) (h : run sr tw blocks = Except.ok target) :
    ∀ blk ∈ target, ∀ row ∈ blk, ∀ x ∈ row, x = 0 ∨ x = 1 ∨ x = 255 := by
  intro blk hblk row hrow x hx
  unfold run raster_calculator at h
  cases sr <;> cases tw <;> simp at h
  subst h
  obtain ⟨b, _, rfl⟩ := List.mem_map.mp hblk
  rcases mask_inundation_mem b row hrow x hx with rfl | rfl
  · exact Or.inl rfl
  · exact Or.inr (Or.inl rfl)

/-- Witness for C3 at a successful one-block run. -/
theorem C3_output_domain_witness : (1 : ℕ) = 0 ∨ (1 : ℕ) = 1 ∨ (1 : ℕ) = 255 :=
  C3_output_domain true true [[[Depth.finite 1]]] [[[1]]]
    (by norm_num [run, raster_calculator, mask_inundation, Depth.gtZero])
    [[1]] (by simp) [1] (by simp) 1 (by simp)

/-- C4: applied to the concrete 2×2 block [[2.5, -1.0], [0.0, 0.3]], the
classification function produces exactly the block [[1, 0], [0, 1]]. -/
theorem C4_concrete_2x2_block :
    mask_inundation
      [[Depth.finite (5/2), Depth.finite (-1)],
       [Depth.finite 0, Depth.finite (3/10)]] = [[1, 0], [0, 1]] := by
  norm_num [mask_inundation, Depth.gtZero]

/-- C5: the output block of `mask_inundation` has exactly the same shape as
the input block (including zero-size blocks), and every element fits in an
unsigned 8-bit integer. -/
theorem C5_shape_and_uint8 (b : Block Depth) :
    shape (mask_inundation b) = shape b
      ∧ ∀ row ∈ mask_inundation b, ∀ x ∈ row, x < 256 := by
  constructor
  · unfold shape
    rw [mask_inundation_eq_map]
    simp
  · intro row hrow x hx
    rcases mask_inundation_mem b row hrow x hx with rfl | rfl <;> norm_num

/-- Witness for C5 at the single-pixel block [[1.0]]. -/
theorem C5_shape_and_uint8_witness :
    shape (mask_inundation [[Depth.finite 1]]) = shape [[Depth.finite 1]]
      ∧ (1 : ℕ) < 256 :=
  ⟨(C5_shape_and_uint8 [[Depth.finite 1]]).1,
   (C5_shape_and_uint8 [[Depth.finite 1]]).2 [1]
     (by norm_num [mask_inundation, Depth.gtZero]) 1 (by simp)⟩

/-- C6: the transform is deterministic: the same source blocks give the
same target, and the classification function returns equal output blocks
for equal input blocks. -/
theorem C6_deterministic (sourceBlocks₁ sourceBlocks₂ : List (Block Depth))
    (sr tw : Bool) (h : sourceBlocks₁ = sourceBlocks₂) :
    run sr tw sourceBlocks₁ = run sr tw sourceBlocks₂
      ∧ ∀ b₁ b₂ : Block Depth, b₁ = b₂ →
          mask_inundation b₁ = mask_inundation b₂ :=
  ⟨by rw [h], fun b₁ b₂ hb => by rw [hb]⟩

/-- Witness for C6 at a concrete one-block source. -/
theorem C6_deterministic_witness :
    run true true [[[Depth.nan]]] = run true true [[[Depth.nan]]]
      ∧ mask_inundation [[Depth.finite 0]] = mask_inundation [[Depth.finite 0]] :=
  ⟨(C6_deterministic [[[Depth.nan]]] [[[Depth.nan]]] true true rfl).1,
   (C6_deterministic [[[Depth.nan]]] [[[Depth.nan]]] true true rfl).2
     [[Depth.finite 0]] [[Depth.finite 0]] rfl⟩

/-- C7: each target pixel depends only on the source pixel at the same
position — blocks agreeing at a position give outputs agreeing there — and
the function is the elementwise map of a single scalar classifier. -/
theorem C7_pixelwise_local (b₁ b₂ : Block Depth) (i j : ℕ)
    (h : pixel? b₁ i j = pixel? b₂ i j) :
    pixel? (mask_inundation b₁) i j = pixel? (mask_inundation b₂) i j
      ∧ mask_inundation b₁ = b₁.map (List.map classifyPixel) := by
  constructor
  · rw [pixel?_mask_inundation, pixel?_mask_inundation, h]
  · exact mask_inundation_eq_map b₁

/-- Witness for C7 at two blocks agreeing at position (0, 0) and differing
at position (0, 1). -/
theorem C7_pixelwise_local_witness :
    pixel? (mask_inundation [[Depth.finite 1, Depth.finite 2]]) 0 0
      = pixel? (mask_inundation [[Depth.finite 1, Depth.negInf]]) 0 0 :=
  (C7_pixelwise_local [[Depth.finite 1, Depth.finite 2]]
    [[Depth.finite 1, Depth.negInf]] 0 0 rfl).1

/-- C8: when the source is unreadable or the target unwritable, `run`
propagates the library's error unchanged (no catch) and the process exit
status is non-zero; on success it returns the written raster and the
process exits 0. -/
theorem C8_error_propagation (sr tw : Bool) (src : List (Block Depth)) :
    ((sr = false ∨ tw = false) →
        (∃ e : RasterError, run sr tw src = Except.error e)
          ∧ run sr tw src = raster_calculator sr tw mask_inundation src
          ∧ exitCode (run sr tw src) ≠ 0)
      ∧ (sr = true → tw = true →
          run sr tw src = Except.ok (src.map mask_inundation)
            ∧ exitCode (run sr tw src) = 0) := by
  constructor
  · intro h
    rcases h with rfl | rfl
    · exact ⟨⟨.sourceUnreadable, rfl⟩, rfl,
        by simp [run, raster_calculator, exitCode]⟩
    · cases sr with
      | false => exact ⟨⟨.sourceUnreadable, rfl⟩, rfl,
          by simp [run, raster_calculator, exitCode]⟩
      | true => exact ⟨⟨.targetUnwritable, rfl⟩, rfl,
          by simp [run, raster_calculator, exitCode]⟩
  · rintro rfl rfl
    exact ⟨rfl, rfl⟩

/-- Witness for C8: a failing run (unreadable source) and a successful
run on the empty source. -/
theorem C8_error_propagation_witness :
    ((∃ e : RasterError,
        run false true ([] : List (Block Depth)) = Except.error e)
      ∧ run false true ([] : List (Block Depth))
          = raster_calculator false true mask_inundation []
      ∧ exitCode (run false true ([] : List (Block Depth))) ≠ 0)
    ∧ (run true true ([] : List (Block Depth))
          = Except.ok (List.map mask_inundation [])
        ∧ exitCode (run true true ([] : List (Block Depth))) = 0) :=
  ⟨(C8_error_propagation false true []).1 (Or.inl rfl),
   (C8_error_propagation true true []).2 rfl rfl⟩

/-- C9: the classification function only ever outputs 0 or 1; the nodata
marker 255 (the `nodata_target` argument) is never produced by the mapping
function itself. -/
theorem C9_range_zero_one (b : Block Depth) (row : List ℕ) (x : ℕ)
    (hrow : row ∈ mask_inundation b) (hx : x ∈ row) :
    (x = 0 ∨ x = 1) ∧ x ≠ nodata_target := by
  rcases mask_inundation_mem b row hrow x hx with rfl | rfl
  · exact ⟨Or.inl rfl, by decide⟩
  · exact ⟨Or.inr rfl, by decide⟩

/-- Witness for C9 at the single-pixel block [[1.0]]. -/
theorem C9_range_zero_one_witness :
    ((1 : ℕ) = 0 ∨ (1 : ℕ) = 1) ∧ (1 : ℕ) ≠ nodata_target :=
  C9_range_zero_one [[Depth.finite 1]] [1] 1
    (by norm_num [mask_inundation, Depth.gtZero]) (by simp)

/-- C10: a NaN input pixel is classified as 0 ("not underwater"), because
the comparison NaN > 0 is false; no error and no 255 is produced. -/
theorem C10_nan_maps_to_zero (b : Block Depth) (i j : ℕ)
    (h : pixel? b i j = some Depth.nan) :
    pixel? (mask_inundation b) i j = some 0 := by
  rw [pixel?_mask_inundation, h]; rfl

/-- Witness for C10 at the single-pixel block [[NaN]]. -/
theorem C10_nan_maps_to_zero_witness :
    pixel? (mask_inundation [[Depth.nan]]) 0 0 = some 0 :=
  C10_nan_maps_to_zero [[Depth.nan]] 0 0 rfl
